import Mathlib

set_option maxRecDepth 8000

/-!
Shallow embedding of the RAG pipeline of this repository.

The embedded code:
- src/server/services/ragService.js : the `query` pipeline (similarity-scored
  retrieval results in, answer + citations out), its relevance filter, context
  and citation assembly, and the grounding prompt.
- src/server/server.js : the POST /api/rag/upload route (multer fileFilter,
  the handler including its error cleanup) and the trailing error middleware.
- the chunker configuration of ingestPDF (chunk size 1000, overlap 200); the
  splitter itself is the external RecursiveCharacterTextSplitter library, so
  it is modelled from the spec (see `chunkText`).

External services (Pinecone search, the OpenAI chat model) are parameters:
the search result list and the LLM (a `String → String` on the prompt) are
inputs of the embedded `query`.

Similarity scores are embedded as rationals (ℚ); concrete scores are written
with `mkRat` so that witnesses evaluate in the kernel.
-/

namespace Rag

/-! ## Data model -/

/-- Loader-provided location info on a chunk (`doc.metadata.loc`). -/
structure Loc where
  pageNumber : Option Nat
  deriving Repr, DecidableEq

/-- Chunk metadata as read by the citation builder (`doc.metadata`).
`Option` models absent JS fields. -/
structure DocMetadata where
  fileName : Option String
  loc : Option Loc
  page : Option Nat
  deriving Repr, DecidableEq

/-- A retrieved document chunk (`doc` in `ragService.js`). -/
structure Doc where
  pageContent : String
  metadata : DocMetadata
  deriving Repr, DecidableEq

/-- One similarity-search result: a chunk paired with its score,
as returned by `similaritySearchWithScore`. -/
abbrev Scored := Doc × ℚ

/-- The `page` field of a citation is a JS number or the string literal
rendered as N/A; embedded as a sum. -/
inductive PageVal where
  | num (n : Nat)
  | na
  deriving Repr, DecidableEq

/-- A citation record (`ragService.js` lines 189-195). -/
structure Citation where
  id : Nat
  fileName : String
  page : PageVal
  text : String
  relevance : String
  deriving Repr, DecidableEq

/-- The query result object returned to the caller. -/
structure QueryResult where
  success : Bool
  answer : String
  citations : List Citation
  sources : Nat
  deriving Repr, DecidableEq

/-- A query result together with whether `llm.invoke` was reached. -/
structure QueryOutput where
  result : QueryResult
  llmCalled : Bool
  deriving Repr, DecidableEq

/-! ## String constants of ragService.js -/

def emptyStr : String := ""

def unknownName : String := "Unknown"

def dots : String := "..."

def noDocsAnswer : String :=
  "No documents have been uploaded yet. Please upload a PDF to get started."

def notFoundAnswer : String :=
  "I could not find relevant information about this topic in the uploaded documents. The question may be outside the scope of the available content."

def sep2 : String := "\n\n"

def lbracket : String := "["

def relevanceMid : String := "] (relevance: "

def closeParen : String := ") "

def decimalPoint : String := "."

def zeroDigit : String := "0"

def promptHeader : String :=
  "You are a document Q&A assistant. Your job is to answer questions ONLY using information from the provided context.\n\nCRITICAL RULES:\n1. If the context does not contain information to answer the question, respond with: \"This information is not found in the uploaded documents.\"\n2. NEVER make up or infer information that is not explicitly stated in the context.\n3. ALWAYS cite your sources using [1], [2], etc. for every claim you make.\n4. If only partial information is available, state what you found and what is missing.\n\nContext from documents:\n"

def promptQuestionLabel : String := "\n\nQuestion: "

def promptTail : String :=
  "\n\nAnswer based ONLY on the context above. If the answer is not in the context, say \"This information is not found in the uploaded documents.\""

/-! ## Query pipeline (ragService.js, `query`) -/

/-- `RELEVANCE_THRESHOLD = 0.7` (line 168). -/
def RELEVANCE_THRESHOLD : ℚ := mkRat 7 10

/-- The minimum viable score named by the spec (0.3); the code has no such
constant, this is only used to state the spec-side claims. -/
def minViableScore : ℚ := mkRat 3 10

/-- JS `Number.toFixed(2)` (round half up), on the nonnegative rational
scores the service formats. -/
def toFixed2 (q : ℚ) : String :=
  let n : Nat := (200 * q.num.toNat + q.den) / (2 * q.den)
  toString (n / 100) ++ decimalPoint ++
    (if n % 100 < 10 then zeroDigit ++ toString (n % 100) else toString (n % 100))

/-- JS `v || d` on a string-valued field: `undefined`, `null` and the empty
string are falsy. -/
def jsStringOr (v : Option String) (d : String) : String :=
  match v with
  | some s => if s = emptyStr then d else s
  | none => d

/-- Second and third disjunct of `doc.metadata.loc?.pageNumber || doc.metadata.page || 'N/A'`
(a JS number 0 is falsy). -/
def pageFallback (m : DocMetadata) : PageVal :=
  match m.page with
  | some n => if n = 0 then PageVal.na else PageVal.num n
  | none => PageVal.na

/-- `doc.metadata.loc?.pageNumber || doc.metadata.page || 'N/A'` (line 192). -/
def pageOf (m : DocMetadata) : PageVal :=
  match m.loc.bind Loc.pageNumber with
  | some n => if n = 0 then pageFallback m else PageVal.num n
  | none => pageFallback m

/-- `relevantDocs.filter(([doc, score]) => score >= RELEVANCE_THRESHOLD)` (line 169). -/
def relevanceFilter (relevantDocs : List Scored) : List Scored :=
  relevantDocs.filter (fun p => decide (RELEVANCE_THRESHOLD ≤ p.2))

/-- One line of the context block:
`[i+1] (relevance: score.toFixed(2)) doc.pageContent` (line 185). -/
def contextEntry (i : Nat) (p : Scored) : String :=
  lbracket ++ toString (i + 1) ++ relevanceMid ++ toFixed2 p.2 ++ closeParen ++
    p.1.pageContent

/-- The context lines, in retrieval order with 0-based indices. -/
def contextEntries (rs : List Scored) : List String :=
  rs.enum.map (fun e => contextEntry e.1 e.2)

/-- `relevantResults.map(...).join('\n\n')` (lines 184-186). -/
def buildContext (rs : List Scored) : String :=
  String.intercalate sep2 (contextEntries rs)

/-- One citation record (lines 189-195). -/
def mkCitation (i : Nat) (p : Scored) : Citation :=
  { id := i + 1
  , fileName := jsStringOr p.1.metadata.fileName unknownName
  , page := pageOf p.1.metadata
  , text := p.1.pageContent.take 150 ++ dots
  , relevance := toFixed2 p.2 }

/-- `relevantResults.map(([doc, score], i) => ({...}))` (line 189). -/
def mkCitations (rs : List Scored) : List Citation :=
  rs.enum.map (fun e => mkCitation e.1 e.2)

/-- The grounding prompt template (lines 198-211). -/
def buildPrompt (context question : String) : String :=
  promptHeader ++ context ++ promptQuestionLabel ++ question ++ promptTail

/-- `query` of ragService.js (lines 143-228), from the point where the
similarity search has produced `relevantDocs`; `llm` is the hosted chat
model applied to the prompt. `llmCalled` records whether `llm.invoke`
was reached. -/
def query (llm : String → String) (question : String) (relevantDocs : List Scored) :
    QueryOutput :=
  if relevantDocs.length = 0 then
    { result := { success := true, answer := noDocsAnswer, citations := [], sources := 0 }
    , llmCalled := false }
  else
    let relevantResults := relevanceFilter relevantDocs
    if relevantResults.length = 0 then
      { result := { success := true, answer := notFoundAnswer, citations := [], sources := 0 }
      , llmCalled := false }
    else
      { result := { success := true
                  , answer := llm (buildPrompt (buildContext relevantResults) question)
                  , citations := mkCitations relevantResults
                  , sources := relevantDocs.length }
      , llmCalled := true }

/-- The relevance gate described by the spec sentence behind claim C1
(dynamic threshold: keep candidates scoring within 70 percent of the top
score), stated from the words of the spec for comparison with the code. -/
def dynamicGate (docs : List Scored) : List Scored :=
  match docs with
  | [] => []
  | top :: _ => docs.filter (fun p => decide (RELEVANCE_THRESHOLD * top.2 ≤ p.2))

/-! ## Upload route (server.js) -/

/-- Result object of a successful `ingestPDF`. -/
structure IngestResult where
  fileName : String
  chunks : Nat
  pages : Nat
  deriving Repr, DecidableEq

/-- Outcome of the POST /api/rag/upload route: HTTP status, response body
fields, whether the stored upload was unlinked from disk, and whether
`ragService.ingestPDF` (the embedding/upsert path) was entered. -/
structure RouteOutcome where
  status : Nat
  success : Bool
  error : Option String
  fileDeleted : Bool
  ingestCalled : Bool
  deriving Repr, DecidableEq

/-- Errors reaching the trailing error middleware (server.js lines 509-526):
either a `multer.MulterError` (with or without code LIMIT_FILE_SIZE) or a
plain `Error` such as the one thrown by the custom fileFilter. -/
inductive ServerError where
  | multerLimitFileSize
  | multerOther
  | plainError (msg : String)
  deriving Repr, DecidableEq

def applicationPdf : String := "application/pdf"

def onlyPdfMsg : String := "Only PDF files are allowed"

def noFileMsg : String := "No PDF file uploaded"

def keysMissingMsg : String := "Gemini and Pinecone API keys are required for RAG functionality"

def fileTooLargeMsg : String := "File too large. Maximum size is 10MB"

def internalErrorMsg : String := "Internal server error"

/-- The error handling middleware (server.js lines 509-526): only a
MulterError with code LIMIT_FILE_SIZE gets a 400; every other error falls
through to a generic 500 response. Returns (status, error message). -/
def errorMiddleware (e : ServerError) : Nat × String :=
  match e with
  | ServerError.multerLimitFileSize => (400, fileTooLargeMsg)
  | ServerError.multerOther => (500, internalErrorMsg)
  | ServerError.plainError _ => (500, internalErrorMsg)

/-- The multer fileFilter (server.js lines 35-41): accept exactly the
mimetype application/pdf, otherwise reject with a plain Error. -/
def fileFilter (mimetype : String) : Except String Unit :=
  if mimetype = applicationPdf then Except.ok () else Except.error onlyPdfMsg

/-- The POST /api/rag/upload handler body (server.js lines 363-414).
`filePresent` is `req.file` being set, `keysPresent` is the GEMINI and
PINECONE key check, `deleteUploadedPdfs` is the condition
`process.env.DELETE_UPLOADED_PDFS !== 'false'`, and `ingest` is the outcome
of `ragService.ingestPDF` (an error for e.g. a vector-store upsert failure,
which `ingestPDF` rethrows). The catch block unlinks the stored file. -/
def uploadHandler (filePresent keysPresent deleteUploadedPdfs : Bool)
    (ingest : Except String IngestResult) : RouteOutcome :=
  if !filePresent then
    { status := 400, success := false, error := some noFileMsg
    , fileDeleted := false, ingestCalled := false }
  else if !keysPresent then
    { status := 500, success := false, error := some keysMissingMsg
    , fileDeleted := true, ingestCalled := false }
  else
    match ingest with
    | Except.ok _ =>
        { status := 200, success := true, error := none
        , fileDeleted := deleteUploadedPdfs, ingestCalled := true }
    | Except.error msg =>
        { status := 500, success := false, error := some msg
        , fileDeleted := true, ingestCalled := true }

/-- The whole route for a single-file request: multer runs the fileFilter
first; on rejection the handler never runs, no file is stored, and the
plain Error goes to the error middleware. On acceptance the file is stored
and the handler runs with `req.file` set. -/
def uploadRoute (mimetype : String) (keysPresent deleteUploadedPdfs : Bool)
    (ingest : Except String IngestResult) : RouteOutcome :=
  match fileFilter mimetype with
  | Except.ok _ => uploadHandler true keysPresent deleteUploadedPdfs ingest
  | Except.error msg =>
      let r := errorMiddleware (ServerError.plainError msg)
      { status := r.1, success := false, error := some r.2
      , fileDeleted := false, ingestCalled := false }

/-! ## Chunker -/

/-- Modelled from the spec: ingestPDF delegates splitting to the external
RecursiveCharacterTextSplitter of the LangChain textsplitters package
(configured in ragService.js lines 102-105 with chunkSize 1000 and
chunkOverlap 200); the splitter implementation is not part of this
repository, so this follows the words of the spec: fixed chunk size of
1000 characters with a fixed overlap of 200 characters between
consecutive chunks. -/
def chunkText (s : List Char) : List (List Char) :=
  if s.length ≤ 1000 then (if s = [] then [] else [s])
  else s.take 1000 :: chunkText (s.drop 800)
termination_by s.length
decreasing_by simp only [List.length_drop]; omega

/-! ## Concrete sample inputs used by witnesses and counterexamples -/

def fileA : String := "report.pdf"

def textA : String := "Revenue grew by 10 percent in 2024."

def textB : String := "The weather was mild."

def questionStr : String := "What was the revenue growth?"

def answerStub : String := "Revenue grew by 10 percent [1]."

def storageErrMsg : String := "Pinecone upsert failed"

def imageJpeg : String := "image/jpeg"

def metaA : DocMetadata :=
  { fileName := some fileA, loc := some { pageNumber := some 2 }, page := none }

def docA : Doc := { pageContent := textA, metadata := metaA }

def metaB : DocMetadata := { fileName := none, loc := none, page := none }

def docB : Doc := { pageContent := textB, metadata := metaB }

/-- A single candidate scoring 0.8: above the fixed threshold. -/
def docsHigh : List Scored := [(docA, mkRat 4 5)]

/-- Two candidates, 0.8 and 0.6: the second is below the fixed 0.7
threshold but within 70 percent of the top score. -/
def docsMixed : List Scored := [(docA, mkRat 4 5), (docB, mkRat 3 5)]

/-- Two candidates, both below the minimum viable score 0.3. -/
def docsLow : List Scored := [(docA, mkRat 1 5), (docB, mkRat 1 10)]

/-- A stand-in hosted LLM. -/
def llmConst : String → String := fun _ => answerStub

def sampleIngest : IngestResult := { fileName := fileA, chunks := 9, pages := 3 }

/-- 2200 characters of text for the chunker witness. -/
def sampleText : List Char := List.replicate 2200 (Char.ofNat 97)

/-- The overlap invariant between two consecutive chunks: both are at least
200 characters long and the last 200 characters of the first are exactly
the first 200 characters of the second. -/
def chunkRel (a b : List Char) : Prop :=
  200 ≤ a.length ∧ 200 ≤ b.length ∧ a.drop (a.length - 200) = b.take 200

/-! ## Helper lemmas -/

theorem query_nil (llm : String → String) (q : String) :
    query llm q [] =
      { result := { success := true, answer := noDocsAnswer, citations := [], sources := 0 }
      , llmCalled := false } := rfl

theorem query_not_found (llm : String → String) (q : String) (docs : List Scored)
    (h0 : docs ≠ []) (h1 : relevanceFilter docs = []) :
    query llm q docs =
      { result := { success := true, answer := notFoundAnswer, citations := [], sources := 0 }
      , llmCalled := false } := by
  have hl0 : ¬ docs.length = 0 := by simpa [List.length_eq_zero] using h0
  simp [query, hl0, h1]

theorem query_generated (llm : String → String) (q : String) (docs : List Scored)
    (h0 : docs ≠ []) (h1 : relevanceFilter docs ≠ []) :
    query llm q docs =
      { result := { success := true
                  , answer := llm (buildPrompt (buildContext (relevanceFilter docs)) q)
                  , citations := mkCitations (relevanceFilter docs)
                  , sources := docs.length }
      , llmCalled := true } := by
  have hl0 : ¬ docs.length = 0 := by simpa [List.length_eq_zero] using h0
  have hl1 : ¬ (relevanceFilter docs).length = 0 := by
    simpa [List.length_eq_zero] using h1
  simp [query, hl0, hl1]

theorem llmCalled_true_iff (llm : String → String) (q : String) (docs : List Scored) :
    (query llm q docs).llmCalled = true ↔ docs ≠ [] ∧ relevanceFilter docs ≠ [] := by
  constructor
  · intro h
    by_cases h0 : docs = []
    · subst h0; rw [query_nil] at h; simp at h
    · by_cases h1 : relevanceFilter docs = []
      · rw [query_not_found llm q docs h0 h1] at h; simp at h
      · exact ⟨h0, h1⟩
  · rintro ⟨h0, h1⟩
    rw [query_generated llm q docs h0 h1]

theorem mkCitations_length (rs : List Scored) : (mkCitations rs).length = rs.length := by
  simp [mkCitations, List.enum_length]

theorem contextEntries_length (rs : List Scored) : (contextEntries rs).length = rs.length := by
  simp [contextEntries, List.enum_length]

theorem mkCitations_get (rs : List Scored) (i : Nat)
    (hi : i < (mkCitations rs).length) (hj : i < rs.length) :
    (mkCitations rs).get ⟨i, hi⟩ = mkCitation i (rs.get ⟨i, hj⟩) := by
  simp [mkCitations, List.get_eq_getElem, List.getElem_map, List.getElem_enum]

theorem contextEntries_get (rs : List Scored) (i : Nat)
    (hi : i < (contextEntries rs).length) (hj : i < rs.length) :
    (contextEntries rs).get ⟨i, hi⟩ = contextEntry i (rs.get ⟨i, hj⟩) := by
  simp [contextEntries, List.get_eq_getElem, List.getElem_map, List.getElem_enum]

theorem chain_desc_le_head (a : Scored) (t : List Scored)
    (h : List.Chain (fun x y => y.2 ≤ x.2) a t) : ∀ p ∈ t, p.2 ≤ a.2 := by
  induction h with
  | nil => simp
  | cons hab hch ih =>
      intro p hp
      rcases List.mem_cons.mp hp with rfl | hp
      · exact hab
      · exact le_trans (ih p hp) hab

theorem filter_relevance_eq_nil (docs : List Scored)
    (hall : ∀ p ∈ docs, p.2 < minViableScore) : relevanceFilter docs = [] := by
  rw [relevanceFilter, List.filter_eq_nil_iff]
  intro p hp
  have hlt : p.2 < minViableScore := hall p hp
  have hmv : minViableScore < RELEVANCE_THRESHOLD := by decide
  simp only [decide_eq_true_eq, not_le]
  exact lt_trans hlt hmv

/-! ## Claims -/

/-- C4: a query whose similarity search yields zero candidates returns the
canned no-documents answer with empty citations and sources equal to 0,
and the generation model is never invoked. -/
theorem c4_zero_results_short_circuit (llm : String → String) (q : String) :
    query llm q [] =
      { result := { success := true, answer := noDocsAnswer, citations := [], sources := 0 }
      , llmCalled := false } := rfl

/-- C5: when the similarity search returns candidates in descending score
order and the top score is below the minimum viable threshold 0.3, the
query returns the not-found response with empty citations and the
generation model is not invoked. -/
theorem c5_below_min_viable (llm : String → String) (q : String) (docs : List Scored)
    (h0 : docs ≠ [])
    (hsorted : List.Chain' (fun x y => y.2 ≤ x.2) docs)
    (htop : (docs.head h0).2 < minViableScore) :
    query llm q docs =
      { result := { success := true, answer := notFoundAnswer, citations := [], sources := 0 }
      , llmCalled := false } := by
  have hall : ∀ p ∈ docs, p.2 < minViableScore := by
    cases docs with
    | nil => exact absurd rfl h0
    | cons a t =>
        intro p hp
        have ha : ((a :: t).head h0).2 < minViableScore := htop
        rcases List.mem_cons.mp hp with rfl | hp
        · exact ha
        · have hc : List.Chain (fun x y : Scored => y.2 ≤ x.2) a t := hsorted
          exact lt_of_le_of_lt (chain_desc_le_head a t hc p hp) ha
  exact query_not_found llm q docs h0 (filter_relevance_eq_nil docs hall)

/-- C5 witness: the theorem applied to two concrete candidates scoring
0.2 and 0.1. -/
theorem c5_below_min_viable_witness :
    List.Chain' (fun x y : Scored => y.2 ≤ x.2) docsLow ∧
    query llmConst questionStr docsLow =
      { result := { success := true, answer := notFoundAnswer, citations := [], sources := 0 }
      , llmCalled := false } := by
  have hs : List.Chain' (fun x y : Scored => y.2 ≤ x.2) docsLow := by
    rw [docsLow, List.chain'_cons]
    exact ⟨by decide, List.chain'_singleton _⟩
  exact ⟨hs, c5_below_min_viable llmConst questionStr docsLow (by decide) hs (by decide)⟩

/-- C1 counterexample: with candidates scoring 0.8 and 0.6, the 0.6
candidate lies within 70 percent of the top score (0.6 is at least
0.7 times 0.8), yet the code retains a single citation: the gate is the
fixed threshold 0.7, not a dynamic threshold relative to the top score. -/
theorem c1_counterexample :
    (query llmConst questionStr docsMixed).result.citations.length = 1 ∧
    (dynamicGate docsMixed).length = 2 ∧
    RELEVANCE_THRESHOLD * mkRat 4 5 ≤ mkRat 3 5 := by
  refine ⟨by decide, ?_, ?_⟩
  · norm_num [dynamicGate, docsMixed, List.filter_cons, decide_eq_true_eq,
      RELEVANCE_THRESHOLD, Rat.mkRat_eq_div]
  · norm_num [RELEVANCE_THRESHOLD, Rat.mkRat_eq_div]

/-- C1 (amended): the relevance gate retains exactly the candidates whose
similarity score is at least the fixed threshold 0.7; when no candidate
reaches 0.7, no LLM call is made and the not-found response is returned
immediately. -/
theorem c1_fixed_threshold_gate (llm : String → String) (q : String) (docs : List Scored)
    (h0 : docs ≠ []) :
    (query llm q docs).result.citations = mkCitations (relevanceFilter docs) ∧
    (relevanceFilter docs = [] →
      (query llm q docs).result.answer = notFoundAnswer ∧
      (query llm q docs).result.citations = [] ∧
      (query llm q docs).llmCalled = false) ∧
    (relevanceFilter docs ≠ [] → (query llm q docs).llmCalled = true) := by
  refine ⟨?_, ?_, ?_⟩
  · by_cases h1 : relevanceFilter docs = []
    · rw [query_not_found llm q docs h0 h1, h1]; rfl
    · rw [query_generated llm q docs h0 h1]
  · intro h1
    rw [query_not_found llm q docs h0 h1]
    exact ⟨rfl, rfl, rfl⟩
  · intro h1
    rw [query_generated llm q docs h0 h1]

/-- C1 witness: the amended gate evaluated on the mixed 0.8 / 0.6 input. -/
theorem c1_fixed_threshold_gate_witness :
    docsMixed ≠ [] ∧
    (query llmConst questionStr docsMixed).result.citations =
      mkCitations (relevanceFilter docsMixed) :=
  ⟨by decide, (c1_fixed_threshold_gate llmConst questionStr docsMixed (by decide)).1⟩

/-- C2: for a generated answer, the citations are exactly those built from
the surviving chunks in order, citation i carries id i + 1, the i-th
context line of the prompt is labelled with the same bracket number i + 1
and holds the same chunk, and the answer is the LLM applied to the prompt
built from those context lines. -/
theorem c2_citation_ids_match_brackets (llm : String → String) (q : String)
    (docs : List Scored) (h0 : docs ≠ []) (h1 : relevanceFilter docs ≠ []) :
    (query llm q docs).result.citations = mkCitations (relevanceFilter docs) ∧
    (query llm q docs).result.answer =
      llm (buildPrompt (String.intercalate sep2 (contextEntries (relevanceFilter docs))) q) ∧
    (∀ i, ∀ hi : i < (mkCitations (relevanceFilter docs)).length,
      ((mkCitations (relevanceFilter docs)).get ⟨i, hi⟩).id = i + 1) ∧
    (∀ i, ∀ hi : i < (contextEntries (relevanceFilter docs)).length,
      ∀ hj : i < (relevanceFilter docs).length,
      (contextEntries (relevanceFilter docs)).get ⟨i, hi⟩ =
        lbracket ++ toString (i + 1) ++ relevanceMid ++
          toFixed2 ((relevanceFilter docs).get ⟨i, hj⟩).2 ++ closeParen ++
          ((relevanceFilter docs).get ⟨i, hj⟩).1.pageContent) := by
  refine ⟨?_, ?_, ?_, ?_⟩
  · rw [query_generated llm q docs h0 h1]
  · rw [query_generated llm q docs h0 h1, buildContext]
  · intro i hi
    have hj : i < (relevanceFilter docs).length := by
      rw [← mkCitations_length]; exact hi
    rw [mkCitations_get (relevanceFilter docs) i hi hj, mkCitation]
  · intro i hi hj
    rw [contextEntries_get (relevanceFilter docs) i hi hj, contextEntry]

/-- C2 witness: the citation list and prompt alignment evaluated on the
mixed 0.8 / 0.6 input, where one chunk survives the gate. -/
theorem c2_citation_ids_match_brackets_witness :
    relevanceFilter docsMixed ≠ [] ∧
    (query llmConst questionStr docsMixed).result.citations =
      mkCitations (relevanceFilter docsMixed) :=
  ⟨by decide,
    (c2_citation_ids_match_brackets llmConst questionStr docsMixed (by decide) (by decide)).1⟩

/-- C3 counterexample: a single candidate scoring 0.8 survives the gate, an
answer is generated, and exactly one citation is returned: the claimed
minimum of 2 chunks (and the 2..6 bound) does not hold on the code. -/
theorem c3_counterexample :
    (query llmConst questionStr docsHigh).llmCalled = true ∧
    (query llmConst questionStr docsHigh).result.citations.length = 1 := by decide

/-- C3 (amended): whenever an answer is generated, the number of citations
is between 1 and the number of retrieved candidates: one surviving chunk
suffices for generation, and no maximum-of-6 truncation exists. -/
theorem c3_citation_count_bounds (llm : String → String) (q : String) (docs : List Scored)
    (hgen : (query llm q docs).llmCalled = true) :
    1 ≤ (query llm q docs).result.citations.length ∧
    (query llm q docs).result.citations.length ≤ docs.length := by
  obtain ⟨h0, h1⟩ := (llmCalled_true_iff llm q docs).mp hgen
  rw [query_generated llm q docs h0 h1]
  simp only [mkCitations_length]
  constructor
  · have : (relevanceFilter docs).length ≠ 0 := by
      simpa [List.length_eq_zero] using h1
    omega
  · simpa [relevanceFilter] using List.length_filter_le
      (fun p : Scored => decide (RELEVANCE_THRESHOLD ≤ p.2)) docs

/-- C3 witness: the amended bounds evaluated on the mixed 0.8 / 0.6 input. -/
theorem c3_citation_count_bounds_witness :
    (query llmConst questionStr docsMixed).llmCalled = true ∧
    1 ≤ (query llmConst questionStr docsMixed).result.citations.length ∧
    (query llmConst questionStr docsMixed).result.citations.length ≤ docsMixed.length :=
  ⟨by decide, c3_citation_count_bounds llmConst questionStr docsMixed (by decide)⟩

/-- C9: for a generated answer the sources field equals the number of
candidates returned by the similarity search before threshold filtering
(hence at most topK when the search returned at most topK), and whenever
some retrieved candidate scores below the 0.7 threshold the sources count
strictly exceeds the number of citations. -/
theorem c9_sources_counts_candidates (llm : String → String) (q : String)
    (docs : List Scored) (topK : Nat)
    (hk : docs.length ≤ topK)
    (hgen : (query llm q docs).llmCalled = true) :
    (query llm q docs).result.sources = docs.length ∧
    (query llm q docs).result.sources ≤ topK ∧
    ((∃ p ∈ docs, p.2 < RELEVANCE_THRESHOLD) →
      (query llm q docs).result.citations.length < (query llm q docs).result.sources) := by
  obtain ⟨h0, h1⟩ := (llmCalled_true_iff llm q docs).mp hgen
  rw [query_generated llm q docs h0 h1]
  refine ⟨rfl, hk, ?_⟩
  rintro ⟨p, hp, hlt⟩
  simp only [mkCitations_length, relevanceFilter]
  rw [List.length_filter_lt_length_iff_exists]
  exact ⟨p, hp, by simpa using not_le.mpr hlt⟩

/-- C9 witness: on the mixed 0.8 / 0.6 input with topK 4, sources is 2 and
citations is 1. -/
theorem c9_sources_counts_candidates_witness :
    docsMixed.length ≤ 4 ∧
    (query llmConst questionStr docsMixed).llmCalled = true ∧
    (query llmConst questionStr docsMixed).result.sources = docsMixed.length ∧
    (query llmConst questionStr docsMixed).result.sources ≤ 4 ∧
    ((∃ p ∈ docsMixed, p.2 < RELEVANCE_THRESHOLD) →
      (query llmConst questionStr docsMixed).result.citations.length <
        (query llmConst questionStr docsMixed).result.sources) :=
  ⟨by decide, by decide,
    c9_sources_counts_candidates llmConst questionStr docsMixed 4 (by decide) (by decide)⟩

/-- C10: each citation of a generated answer takes its text as the first
150 characters of the chunk with the ellipsis appended unconditionally,
its relevance as the two-decimal string rendering of the score, the
fileName Unknown when the metadata carries none, and the page N/A when
the chunk has no page-location metadata. -/
theorem c10_citation_fields (llm : String → String) (q : String) (docs : List Scored)
    (h0 : docs ≠ []) (h1 : relevanceFilter docs ≠ [])
    (i : Nat) (hi : i < (query llm q docs).result.citations.length)
    (hj : i < (relevanceFilter docs).length) :
    ((query llm q docs).result.citations.get ⟨i, hi⟩).text =
      ((relevanceFilter docs).get ⟨i, hj⟩).1.pageContent.take 150 ++ dots ∧
    ((query llm q docs).result.citations.get ⟨i, hi⟩).relevance =
      toFixed2 ((relevanceFilter docs).get ⟨i, hj⟩).2 ∧
    (((relevanceFilter docs).get ⟨i, hj⟩).1.metadata.fileName = none →
      ((query llm q docs).result.citations.get ⟨i, hi⟩).fileName = unknownName) ∧
    (((relevanceFilter docs).get ⟨i, hj⟩).1.metadata.loc.bind Loc.pageNumber = none →
      ((relevanceFilter docs).get ⟨i, hj⟩).1.metadata.page = none →
      ((query llm q docs).result.citations.get ⟨i, hi⟩).page = PageVal.na) := by
  have hq := query_generated llm q docs h0 h1
  have hi2 : i < (mkCitations (relevanceFilter docs)).length := by
    rw [mkCitations_length]; exact hj
  have hget : (query llm q docs).result.citations.get ⟨i, hi⟩ =
      mkCitation i ((relevanceFilter docs).get ⟨i, hj⟩) := by
    have : (query llm q docs).result.citations = mkCitations (relevanceFilter docs) := by
      rw [hq]
    rw [List.get_of_eq this, mkCitations_get (relevanceFilter docs) i hi2 hj]
  rw [hget]
  refine ⟨rfl, rfl, ?_, ?_⟩
  · intro hnone
    simp only [List.get_eq_getElem] at hnone
    simp [mkCitation, jsStringOr, hnone]
  · intro hloc hpage
    simp only [List.get_eq_getElem] at hloc hpage
    simp [mkCitation, pageOf, pageFallback, hloc, hpage]

/-- C10 witness: the text, relevance, fileName and page fields of the
single citation produced on the mixed 0.8 / 0.6 input; the surviving
chunk is shorter than 150 characters and the ellipsis is still appended. -/
theorem c10_citation_fields_witness :
    docsMixed ≠ [] ∧
    ((query llmConst questionStr docsMixed).result.citations.get
        ⟨0, by decide⟩).text =
      ((relevanceFilter docsMixed).get ⟨0, by decide⟩).1.pageContent.take 150 ++ dots :=
  ⟨by decide,
    (c10_citation_fields llmConst questionStr docsMixed (by decide) (by decide) 0
      (by decide) (by decide)).1⟩

/-- C6 counterexample: when ingestPDF fails (for example a Pinecone upsert
failure), the upload handler catch block unlinks the stored file before
responding 500: the file IS deleted, contradicting the claim that it is
kept for retry. -/
theorem c6_counterexample :
    (uploadHandler true true true (Except.error storageErrMsg)).fileDeleted = true ∧
    (uploadHandler true true true (Except.error storageErrMsg)).status = 500 ∧
    (uploadHandler true true true (Except.error storageErrMsg)).error =
      some storageErrMsg := by decide

/-- C6 (amended): if the vector-store upsert fails during ingestion, the
error message is propagated as a 500 response, and the uploaded source
file IS deleted from local disk by the error cleanup, regardless of the
DELETE_UPLOADED_PDFS setting; retrying requires re-uploading. -/
theorem c6_upsert_failure_cleanup (deleteUploadedPdfs : Bool) (msg : String) :
    uploadHandler true true deleteUploadedPdfs (Except.error msg) =
      { status := 500, success := false, error := some msg
      , fileDeleted := true, ingestCalled := true } := rfl

/-- C7: a non-PDF upload is rejected before the handler runs, so no
embedding call is attempted; but the rejection reaches the client as a
500 with the generic middleware message, not as a 400-class validation
error, because the custom fileFilter error is not a MulterError. -/
theorem c7_non_pdf_rejection_eval :
    (uploadRoute imageJpeg true true (Except.ok sampleIngest)).status = 500 ∧
    (uploadRoute imageJpeg true true (Except.ok sampleIngest)).ingestCalled = false ∧
    (uploadRoute imageJpeg true true (Except.ok sampleIngest)).error =
      some internalErrorMsg ∧
    fileFilter imageJpeg = Except.error onlyPdfMsg ∧
    errorMiddleware (ServerError.plainError onlyPdfMsg) = (500, internalErrorMsg) :=
  ⟨by decide, by decide, by decide, rfl, rfl⟩

/-! ## Chunker lemmas -/

theorem chunkText_eq (s : List Char) :
    chunkText s = if s.length ≤ 1000 then (if s = [] then [] else [s])
      else s.take 1000 :: chunkText (s.drop 800) := by
  rw [chunkText]

theorem chunkText_chunk_le (s : List Char) : ∀ c ∈ chunkText s, c.length ≤ 1000 := by
  induction s using chunkText.induct with
  | case1 h => intro c hc; rw [chunkText_eq] at hc; simp at hc
  | case2 x h hne =>
      intro c hc
      rw [chunkText_eq, if_pos h, if_neg hne, List.mem_singleton] at hc
      subst hc; exact h
  | case3 x h ih =>
      intro c hc
      rw [chunkText_eq, if_neg h] at hc
      rcases List.mem_cons.mp hc with rfl | hc
      · rw [List.length_take]; omega
      · exact ih c hc

theorem chunkText_head_take (s : List Char) (hlen : 200 < s.length) :
    ∀ b ∈ (chunkText s).head?, b.take 200 = s.take 200 ∧ 200 ≤ b.length := by
  intro b hb
  rw [chunkText_eq] at hb
  by_cases h1 : s.length ≤ 1000
  · have hne : s ≠ [] := by intro he; subst he; simp at hlen
    rw [if_pos h1, if_neg hne] at hb
    simp only [List.head?_cons, Option.mem_def, Option.some.injEq] at hb
    subst hb
    exact ⟨rfl, by omega⟩
  · rw [if_neg h1] at hb
    simp only [List.head?_cons, Option.mem_def, Option.some.injEq] at hb
    subst hb
    refine ⟨?_, ?_⟩
    · rw [List.take_take]; norm_num
    · rw [List.length_take]; omega

theorem chunkText_chain (s : List Char) : List.Chain' chunkRel (chunkText s) := by
  induction s using chunkText.induct with
  | case1 h => rw [chunkText_eq]; simp
  | case2 x h hne =>
      rw [chunkText_eq, if_pos h, if_neg hne]
      exact List.chain'_singleton _
  | case3 x h ih =>
      rw [chunkText_eq, if_neg h]
      rw [List.chain'_cons']
      refine ⟨?_, ih⟩
      intro b hb
      have hlen : 200 < (List.drop 800 x).length := by
        rw [List.length_drop]; omega
      have hh := chunkText_head_take (List.drop 800 x) hlen b hb
      have hlt : (x.take 1000).length = 1000 := by rw [List.length_take]; omega
      have h28 : (1000 : Nat) - 200 = 800 := by norm_num
      refine ⟨by omega, hh.2, ?_⟩
      rw [hlt, h28, List.drop_take, hh.1]

theorem chunkText_sample_mem : sampleText.take 1000 ∈ chunkText sampleText := by
  rw [chunkText_eq, if_neg (by simp [sampleText])]
  exact List.mem_cons_self _ _

/-- C8: every chunk produced by the splitter (modelled from the spec, see
`chunkText`) is at most 1000 characters long, and each pair of consecutive
chunks overlaps in exactly 200 characters: the last 200 characters of a
chunk are the first 200 characters of the next one. -/
theorem c8_chunker_bounds (s : List Char) :
    (∀ c ∈ chunkText s, c.length ≤ 1000) ∧ List.Chain' chunkRel (chunkText s) :=
  ⟨chunkText_chunk_le s, chunkText_chain s⟩

/-- C8 witness: the size bound of the theorem instantiated at the first
chunk of a concrete 2200-character text. -/
theorem c8_chunker_bounds_witness :
    sampleText.take 1000 ∈ chunkText sampleText ∧ (sampleText.take 1000).length ≤ 1000 :=
  ⟨chunkText_sample_mem, (c8_chunker_bounds sampleText).1 _ chunkText_sample_mem⟩

end Rag
